import Mathlib

/-!
Shallow embedding of the DataDock data-import pipeline
(`backend/data_import/services.py` and `backend/data_import/tasks.py`)
and proofs about the claims of its specification.

Conventions of the embedding:
* Python values occurring in imported rows are modelled by `PyVal`.
  Machine floats never decide any property below, so a float is carried
  as an opaque pair of integers used only for (in)equality.
* Python dicts are association lists in insertion order; `dictInsert`
  reproduces CPython's "update in place if present, else append" rule.
* `dateutil.parser.parse` (a third-party library, not repository code)
  is a parameter `parse : String → Option PyDateTime`: `Option.none`
  models a raised `ValueError`, `some t` a parsed datetime.
* Character classes follow the ASCII fragment of Python's `\w` / `\s`;
  every concrete input below is ASCII.
-/

namespace DataDock

/-- Time-stamp values (`pd.Timestamp` / `datetime.datetime`): only the
fields the service reads (`hour`, `minute`, `second`) plus the date part
used when rendering ISO strings. -/
structure PyDateTime where
  year : Nat
  month : Nat
  day : Nat
  hour : Nat
  minute : Nat
  second : Nat
deriving DecidableEq, Repr

/-- Python values in imported records.  `pyListV` / `pyDictV` stand for
nested JSON lists/objects reaching the type detector from the endpoint
path, where only their Python type name (`list` / `dict`) is ever
consulted. -/
inductive PyVal where
  | pyNone
  | pyStr (s : String)
  | pyInt (n : Int)
  | pyFloat (mantissa exponent : Int)
  | pyBool (b : Bool)
  | pyTs (t : PyDateTime)
  | pyListV
  | pyDictV
deriving DecidableEq, Repr

open PyVal

/-- A Python dict mapping field names to values, in insertion order. -/
abbrev Dict := List (String × PyVal)

/-- One element of the `data` list handed to the service: either a dict
(`isinstance(item, dict)` holds) or some other object. -/
inductive Row where
  | record (d : Dict)
  | notRecord
deriving DecidableEq, Repr

/-- CPython dict assignment `d[k] = v`: overwrite in place when the key
exists, append otherwise. -/
def dictInsert {α : Type} (d : List (String × α)) (k : String) (v : α) :
    List (String × α) :=
  if d.any (fun p => p.1 == k) then
    d.map (fun p => if p.1 == k then (k, v) else p)
  else
    d ++ [(k, v)]

/-- CPython `d.get(k)` as an `Option`. -/
def dictGet {α : Type} (d : List (String × α)) (k : String) : Option α :=
  (d.find? (fun p => p.1 == k)).map Prod.snd

/-- ASCII fragment of Python's regex class `\w`. -/
def isWordChar (c : Char) : Bool := c.isAlphanum || c == '_'

/-- ASCII fragment of Python's regex class `\s`. -/
def isSpaceChar (c : Char) : Bool :=
  c == ' ' || c == '\t' || c == '\n' || c == '\r' || c == '\x0b' || c == '\x0c'

/-- `re.sub(r"\s+", "_", s)`: replace each maximal whitespace run by one
underscore.  The flag records whether the previous character was part of
a whitespace run. -/
def collapseWsAux : Bool → List Char → List Char
  | _, [] => []
  | prevSpace, c :: rest =>
    if isSpaceChar c then
      if prevSpace then collapseWsAux true rest
      else '_' :: collapseWsAux true rest
    else c :: collapseWsAux false rest

/-- `DataImportService.sanitize_column_name` (services.py:33-45), line by
line: drop characters that are neither word nor whitespace characters,
collapse whitespace runs to underscores, lowercase, and — when the result
starts with a digit — replace it by the literal string
`"col_\x7bsanitized\x7d"` (the source assigns a plain string here, not an
f-string, so no interpolation happens); an empty result becomes
`"unnamed_column"`. -/
def sanitize_column_name (column_name : String) : String :=
  let s1 := (column_name.data.filter (fun c => isWordChar c || isSpaceChar c))
  let s2 := collapseWsAux false s1
  let s3 := s2.map Char.toLower
  let s4 : List Char :=
    match s3 with
    | c :: _ => if c.isDigit then "col_\x7bsanitized\x7d".data else s3
    | [] => s3
  if s4.isEmpty then "unnamed_column" else String.mk s4

/-- `DataImportService.TYPE_MAPPING` (services.py:25-31). -/
def TYPE_MAPPING : List (String × String) :=
  [("str", "TEXT"), ("int", "INTEGER"), ("float", "REAL"),
   ("bool", "BOOLEAN"), ("NoneType", "TEXT")]

/-- Python `type(v).__name__` for the modelled value universe. -/
def typeName : PyVal → String
  | pyNone => "NoneType"
  | pyStr _ => "str"
  | pyInt _ => "int"
  | pyFloat _ _ => "float"
  | pyBool _ => "bool"
  | pyTs _ => "Timestamp"
  | pyListV => "list"
  | pyDictV => "dict"

/-- `m.get(k, d)` on a string-keyed dict. -/
def mappingGet (m : List (String × String)) (k d : String) : String :=
  ((m.find? (fun p => p.1 == k)).map Prod.snd).getD d

/-- `types.count(x)`. -/
def countOcc (l : List String) (x : String) : Nat :=
  (l.filter (fun y => y == x)).length

/-- `max(set(types), key=types.count)`: an element of maximal
multiplicity.  CPython's set iteration order is unspecified; the model
picks the first-encountered maximum, which is the only case any claim
exercises (samples with a single distinct type). -/
def mostCommon : List String → String
  | [] => ""
  | t :: ts =>
    (t :: ts).foldl
      (fun best x =>
        if countOcc (t :: ts) x > countOcc (t :: ts) best then x else best) t

/-- `v.hour != 0 or v.minute != 0 or v.second != 0`. -/
def hasTimePart (t : PyDateTime) : Bool :=
  t.hour != 0 || t.minute != 0 || t.second != 0

/-- `isinstance(v, (pd.Timestamp, datetime))`. -/
def isTsVal : PyVal → Bool
  | pyTs _ => true
  | _ => false

/-- `isinstance(v, str)`. -/
def isStrVal : PyVal → Bool
  | pyStr _ => true
  | _ => false

/-- `v is None`. -/
def isNoneVal : PyVal → Bool
  | pyNone => true
  | _ => false

/-- Step 3 of `detect_column_type` (services.py:97-101): most frequent
Python type name of the sample, sent through `TYPE_MAPPING` with default
`"TEXT"`. -/
def fallbackType (sample : List PyVal) : String :=
  mappingGet TYPE_MAPPING (mostCommon (sample.map typeName)) "TEXT"

/-- The loop body `date_parser.parse(v, fuzzy=False)` applied to one
sampled value: strings go to the parser, nothing else is attempted. -/
def strParse (parse : String → Option PyDateTime) : PyVal → Option PyDateTime
  | pyStr s => parse s
  | _ => Option.none

/-- `DataImportService.detect_column_type` (services.py:47-101).  The
float threshold `total_parsed > len(sample[:20]) * 0.8` is rendered as
`5 * total_parsed > 4 * sub.length`; for every length `0 ≤ n ≤ 20` the
double `n * 0.8` rounds close enough to `4n/5` that both comparisons
agree on integers. -/
def detect_column_type (parse : String → Option PyDateTime)
    (values : List PyVal) : String :=
  let non_none_values := values.filter (fun v => !(isNoneVal v))
  if non_none_values.isEmpty then "TEXT"
  else
    let sample := non_none_values.take 100
    if sample.any isTsVal then
      let has_time := sample.any (fun v =>
        match v with
        | pyTs t => hasTimePart t
        | _ => false)
      if has_time then "datetime" else "date"
    else if sample.all isStrVal then
      let sub := sample.take 20
      let parsed := sub.filterMap (strParse parse)
      let datetime_count := (parsed.filter hasTimePart).length
      let date_count := (parsed.filter (fun t => !(hasTimePart t))).length
      let total_parsed := date_count + datetime_count
      if 5 * total_parsed > 4 * sub.length then
        if datetime_count > date_count then "datetime" else "date"
      else fallbackType sample
    else fallbackType sample

/-- Metadata stored for one sanitized column
(`\x7b"original_name": ..., "type": ...\x7d`, services.py:445-448). -/
structure ColInfo where
  original_name : String
  type_ : String
deriving DecidableEq, Repr

/-- `column_structure`: sanitized column name → metadata, as an ordered
dict. -/
abbrev ColStruct := List (String × ColInfo)

/-- `all_keys = set(); for item in data: all_keys.update(item.keys())`
(services.py:433-436).  The set is modelled as the duplicate-free list of
keys in first-occurrence order (CPython set order is unspecified; no
claim depends on it). -/
def collectKeys (data : List Row) : List String :=
  data.foldl
    (fun acc r =>
      match r with
      | Row.record d => acc ++ ((d.map Prod.fst).filter (fun k => !(acc.contains k)))
      | Row.notRecord => acc) []

/-- `[item.get(key) for item in data if isinstance(item, dict)]`
(services.py:441): a missing key contributes Python `None`. -/
def columnValues (data : List Row) (key : String) : List PyVal :=
  data.filterMap (fun r =>
    match r with
    | Row.record d => some ((dictGet d key).getD PyVal.pyNone)
    | Row.notRecord => Option.none)

/-- `DataImportService.analyze_column_structure` (services.py:425-450):
for each field name seen in any record, store its sanitized name with
the original name and detected type; names colliding after sanitization
overwrite (dict assignment). -/
def analyze_column_structure (parse : String → Option PyDateTime)
    (data : List Row) : ColStruct :=
  if data.isEmpty then []
  else
    (collectKeys data).foldl
      (fun cs key =>
        dictInsert cs (sanitize_column_name key)
          { original_name := key
            type_ := detect_column_type parse (columnValues data key) })
      []

/-! ## Row normalizer and deduplicator (`insert_data_orm`) -/

/-- Modelled from the spec: `ImportedDataRecord.generate_row_hash`
(defined in `data_import/models.py`, which is not among the provided
sources) is described as "a deterministic digest over the row's
normalized field values".  It is modelled as a perfect digest: the
normalized mapping itself.  `RowHash` values compare equal exactly when
the normalized rows do. -/
def generate_row_hash (normalized_data : Dict) : Dict := normalized_data

/-- `name_mapping = \x7binfo["original_name"]: col_name for col_name,
info in column_structure.items()\x7d` (services.py:487-490): later
entries with the same original name overwrite earlier ones. -/
def buildNameMapping (column_structure : ColStruct) : List (String × String) :=
  column_structure.foldl
    (fun acc p => dictInsert acc p.2.original_name p.1) []

/-- The per-row loop body building `normalized_data` (services.py:526-530):
keep a field exactly when `name_mapping.get(original_name)` is truthy
(present and a non-empty string). -/
def normalizeRow (name_mapping : List (String × String)) (item : Dict) : Dict :=
  item.foldl
    (fun acc p =>
      match dictGet name_mapping p.1 with
      | some safe => if safe == "" then acc else dictInsert acc safe p.2
      | Option.none => acc) []

/-- The row-classification loop of `insert_data_orm` (services.py:519-566),
threading the growing `existing_hashes` set `ex`.  Returns
`(records_to_create, duplicates_skipped, errors)` where
`records_to_create` lists the staged rows' hashes in input order. -/
def prepareLoop (nm : List (String × String)) :
    List Row → List Dict → List Dict × Nat × Nat
  | [], _ => ([], 0, 0)
  | Row.notRecord :: rest, ex =>
    let (s, d, e) := prepareLoop nm rest ex
    (s, d, e + 1)
  | Row.record item :: rest, ex =>
    let nd := normalizeRow nm item
    if nd.isEmpty then
      let (s, d, e) := prepareLoop nm rest ex
      (s, d, e + 1)
    else
      let h := generate_row_hash nd
      if ex.contains h then
        let (s, d, e) := prepareLoop nm rest ex
        (s, d + 1, e)
      else
        let (s, d, e) := prepareLoop nm rest (ex ++ [h])
        (h :: s, d, e)

/-- `bulk_create(batch, ignore_conflicts=True)` for one record: a row
whose hash already exists in the table is silently dropped, otherwise it
is appended. -/
def insertIgnore (table : List Dict) (h : Dict) : List Dict :=
  if table.contains h then table else table ++ [h]

/-- Insertion statistics returned by `insert_data_orm`
(services.py:610-615). -/
structure InsertStats where
  inserted : Nat
  duplicates : Nat
  errors : Nat
  total : Nat
deriving DecidableEq, Repr

/-- `DataImportService.insert_data_orm` (services.py:464-615).

The storage layer is explicit: `db` is the list of `row_hash` values
already persisted for the process (read as `existing_hashes`,
services.py:507-512); the function returns the statistics together with
the process's row hashes after the call.  Two aspects of the runtime
environment are parameters: `concurrent` lists hashes written to the
table by other writers between the preload and the bulk insert (they
trigger the `ignore_conflicts` mode, services.py:580-582), and `failAt`
is the index of the first 1000-row batch whose `bulk_create` raises —
when every batch fits below `failAt`, no exception occurs; otherwise
`errors` grows by the whole staged count and `records_inserted` is reset
to `0` (services.py:588-594). -/
def insert_data_orm (db : List Dict) (data : List Row)
    (column_structure : ColStruct) (concurrent : List Dict) (failAt : Nat) :
    InsertStats × List Dict :=
  if data.isEmpty then
    ({ inserted := 0, duplicates := 0, errors := 0, total := 0 }, db)
  else
    let nm := buildNameMapping column_structure
    let (staged, dups, errs) := prepareLoop nm data db
    if staged.isEmpty then
      ({ inserted := 0, duplicates := dups, errors := errs,
         total := 0 + dups + errs }, db)
    else
      let nBatches := (staged.length + 999) / 1000
      if nBatches ≤ failAt then
        ({ inserted := staged.length, duplicates := dups, errors := errs,
           total := staged.length + dups + errs },
         staged.foldl insertIgnore (db ++ concurrent))
      else
        ({ inserted := 0, duplicates := dups,
           errors := errs + staged.length,
           total := 0 + dups + (errs + staged.length) },
         (staged.take (failAt * 1000)).foldl insertIgnore (db ++ concurrent))

/-! ## Error taxonomy

The source raises `ValueError`/`Exception` with message strings; each
constructor below corresponds to one raise site, so that which check
fired stays observable in the model. -/

/-- One constructor per raise site of the pipeline. -/
inductive Err where
  /-- "O arquivo está vazio ou não contém dados válidos"
  (services.py:220/302). -/
  | emptyFile
  /-- Row-limit raise (services.py:224-229 and 389-394). -/
  | limitRows (observed maxAllowed : Nat)
  /-- Column-limit raise (services.py:231-235 and 398-402). -/
  | limitCols (observed maxAllowed : Nat)
  /-- "Response must be a list or JSON object" (services.py:379). -/
  | badShape
  /-- "Endpoint returned empty list" (services.py:382). -/
  | emptyList
  /-- Missing endpoint URL (services.py:672-674). -/
  | missingUrl
  /-- Missing file (services.py:680-682). -/
  | missingFile
  /-- Invalid import type (services.py:685). -/
  | badImportType
  /-- An I/O failure of the reader / HTTP layer, injected by the
  environment oracle. -/
  | sourceErr (msg : String)
deriving DecidableEq, Repr

/-- A human-readable message for `str(e)` where one is stored. -/
def errMessage : Err → String
  | Err.emptyFile => "O arquivo está vazio ou não contém dados válidos"
  | Err.limitRows _ _ => "Arquivo contém \x7brow_count:,\x7d linhas. ..."
  | Err.limitCols _ _ => "Arquivo contém \x7bcol_count\x7d colunas. ..."
  | Err.badShape => "Response must be a list or JSON object"
  | Err.emptyList => "Endpoint returned empty list"
  | Err.missingUrl => "URL do endpoint é obrigatória para importação via endpoint"
  | Err.missingFile => "Arquivo é obrigatório para importação via arquivo"
  | Err.badImportType => "Tipo de importação inválido: \x7bimport_type\x7d"
  | Err.sourceErr m => m

/-! ## Endpoint fetcher -/

/-- JSON values as returned by `response.json()`.  Numbers are carried
as integers: no claim depends on fractional values. -/
inductive Json where
  | null
  | jbool (b : Bool)
  | jnum (n : Int)
  | jstr (s : String)
  | jarr (items : List Json)
  | jobj (fields : List (String × Json))

/-- The `for key, value in data.items(): if isinstance(value, list):
data = value; break` loop (services.py:372-375). -/
def firstListField : List (String × Json) → Option (List Json)
  | [] => Option.none
  | (_, Json.jarr l) :: _ => some l
  | _ :: rest => firstListField rest

/-- Shape normalization of the endpoint response body
(services.py:371-382): an object contributes its first list-valued field
or, failing that, itself as a single row; a non-list non-object body is
rejected; an empty resulting collection is rejected. -/
def normalize_response_shape (body : Json) : Except Err (List Json) :=
  let shaped : Except Err (List Json) :=
    match body with
    | Json.jobj fields =>
      match firstListField fields with
      | some l => Except.ok l
      | Option.none => Except.ok [body]
    | Json.jarr l => Except.ok l
    | _ => Except.error Err.badShape
  match shaped with
  | Except.ok l => if l.isEmpty then Except.error Err.emptyList else Except.ok l
  | Except.error e => Except.error e

/-- A JSON field value as the Python object handed to the analyzers:
nested lists/objects keep only their Python type (see `PyVal`). -/
def jsonToPyVal : Json → PyVal
  | Json.null => PyVal.pyNone
  | Json.jbool b => PyVal.pyBool b
  | Json.jnum n => PyVal.pyInt n
  | Json.jstr s => PyVal.pyStr s
  | Json.jarr _ => PyVal.pyListV
  | Json.jobj _ => PyVal.pyDictV

/-- A JSON row as seen by `analyze_column_structure` / `insert_data_orm`:
objects are dicts, anything else is a non-record entry. -/
def jsonToRow : Json → Row
  | Json.jobj fields => Row.record (fields.map (fun p => (p.1, jsonToPyVal p.2)))
  | _ => Row.notRecord

/-- `DataImportService.fetch_data_from_endpoint` (services.py:312-423)
from the response body on (the HTTP request, retries and SSL fallback
are environment interaction upstream of `response.json()`): shape
normalization, then the row limit on the collection, then the column
limit on the first record only and only when it is an object, then
structure analysis. -/
def fetch_data_from_endpoint (parse : String → Option PyDateTime)
    (body : Json) : Except Err (List Row × ColStruct) :=
  match normalize_response_shape body with
  | Except.error e => Except.error e
  | Except.ok data =>
    if data.length > 100000 then Except.error (Err.limitRows data.length 100000)
    else
      let colCheck : Except Err Unit :=
        match data with
        | Json.jobj fields :: _ =>
          if fields.length > 100 then Except.error (Err.limitCols fields.length 100)
          else Except.ok ()
        | _ => Except.ok ()
      match colCheck with
      | Except.error e => Except.error e
      | Except.ok _ =>
        let rows := data.map jsonToRow
        Except.ok (rows, analyze_column_structure parse rows)

/-! ## Tabular reader -/

/-- The pandas DataFrame produced by `read_file_to_dataframe` /
`pd.read_csv` / `pd.read_excel`: column labels plus a rectangular grid of
cells, with `NaN` already replaced by `None` (`df.where(pd.notna(df),
None)`). -/
structure DataFrame where
  cols : List String
  cells : List (List PyVal)

/-- `df.empty`: some axis has length zero. -/
def dfEmpty (df : DataFrame) : Bool := df.cells.isEmpty || df.cols.isEmpty

/-- Zero-padded two-digit rendering used by `datetime.isoformat()`. -/
def pad2 (n : Nat) : String := if n < 10 then "0" ++ toString n else toString n

/-- `value.isoformat()` for the modelled timestamp. -/
def isoOf (t : PyDateTime) : String :=
  toString t.year ++ "-" ++ pad2 t.month ++ "-" ++ pad2 t.day ++ "T" ++
    pad2 t.hour ++ ":" ++ pad2 t.minute ++ ":" ++ pad2 t.second

/-- Timestamp-to-ISO-string conversion applied per cell
(services.py:195-200). -/
def convCell : PyVal → PyVal
  | PyVal.pyTs t => PyVal.pyStr (isoOf t)
  | v => v

/-- `DataImportService.dataframe_to_dict_list` (services.py:185-202). -/
def dataframe_to_dict_list (df : DataFrame) : List Dict :=
  df.cells.map (fun r => (df.cols.zip r).map (fun p => (p.1, convCell p.2)))

/-- `DataImportService.process_file_data` (services.py:204-247), the
synchronous file path, from the DataFrame the reader produced: emptiness
check, row limit (100000), column limit (100), then conversion and
structure analysis. -/
def process_file_data (parse : String → Option PyDateTime)
    (df : DataFrame) : Except Err (List Row × ColStruct) :=
  if dfEmpty df then Except.error Err.emptyFile
  else
    let row_count := df.cells.length
    let col_count := df.cols.length
    if row_count > 100000 then Except.error (Err.limitRows row_count 100000)
    else if col_count > 100 then Except.error (Err.limitCols col_count 100)
    else
      let data := (dataframe_to_dict_list df).map Row.record
      Except.ok (data, analyze_column_structure parse data)

/-- `DataImportService.process_file_data_from_path` (services.py:249-310),
the file path used by the Celery tasks, from the DataFrame the reader
produced: emptiness check, conversion and structure analysis.  The
source contains no row- or column-limit check on this path. -/
def process_file_data_from_path (parse : String → Option PyDateTime)
    (df : DataFrame) : Except Err (List Row × ColStruct) :=
  if dfEmpty df then Except.error Err.emptyFile
  else
    let data := (dataframe_to_dict_list df).map Row.record
    Except.ok (data, analyze_column_structure parse data)

/-! ## Import orchestrator -/

/-- Modelled from the spec: the `DataImportProcess` row (the model class
lives in `data_import/models.py`, not among the provided sources; fields
follow spec §3 "ImportProcess" and the attribute accesses in
services.py/tasks.py). -/
structure ProcessRec where
  endpoint_url : String
  table_name : String
  status : String
  error_message : Option String
  record_count : Nat
  column_structure : ColStruct
deriving DecidableEq, Repr

/-- The database visible to the orchestrator: the `DataImportProcess`
table and the `ImportedDataRecord` table (kept as `(table_name,
row_hash)` pairs; only hashes matter to the pipeline). -/
structure DB where
  processes : List ProcessRec
  rows : List (String × Dict)
deriving DecidableEq, Repr

/-- Row hashes stored for the process owning `table_name`. -/
def rowsOf (db : DB) (tn : String) : List Dict :=
  (db.rows.filter (fun p => p.1 == tn)).map Prod.snd

/-- Replace the stored row set of one process. -/
def setRows (db : DB) (tn : String) (hs : List Dict) : DB :=
  { db with rows := db.rows.filter (fun p => !(p.1 == tn)) ++ hs.map (fun h => (tn, h)) }

/-- `process.save()` after mutating fields, keyed by the (unique) table
name. -/
def saveProcess (db : DB) (tn : String) (f : ProcessRec → ProcessRec) : DB :=
  { db with processes := db.processes.map (fun p => if p.table_name == tn then f p else p) }

/-- `DataImportProcess.objects.create(...)` at services.py:662-667 (the
`f'file:...'` interpolation there is a real f-string in the source). -/
def mkProcess (tn : String) (eu file : Option String) : ProcessRec :=
  { endpoint_url :=
      match eu with
      | some u => u
      | Option.none => "file:" ++ file.getD "unknown"
    table_name := tn
    status := "active"
    error_message := Option.none
    record_count := 0
    column_structure := [] }

/-- The `try` block of `import_data` (services.py:669-710): dispatch on
`import_type` (validating that the matching source argument is present),
run the fetch/read step, insert, then save the process as active with
the inserted count and the column structure.  `src` is the environment
oracle for what `fetch_data_from_endpoint` / `process_file_data` return
for the given source; `failAt` parameterizes the bulk insert as in
`insert_data_orm`. -/
def import_data_attempt (db1 : DB) (tn : String) (eu file : Option String)
    (it : String) (src : Except Err (List Row × ColStruct)) (failAt : Nat) :
    Except Err DB :=
  let fetched : Except Err (List Row × ColStruct) :=
    if it == "endpoint" then
      match eu with
      | Option.none => Except.error Err.missingUrl
      | some _ => src
    else if it == "file" then
      match file with
      | Option.none => Except.error Err.missingFile
      | some _ => src
    else Except.error Err.badImportType
  match fetched with
  | Except.error e => Except.error e
  | Except.ok (data, cs) =>
    let r := insert_data_orm (rowsOf db1 tn) data cs [] failAt
    let db2 := setRows db1 tn r.2
    Except.ok (saveProcess db2 tn (fun p =>
      { p with status := "active", record_count := r.1.inserted,
               column_structure := cs }))

/-- Outcome of one call to `import_data`: the raised-or-returned result,
the database after the call, and — on the error path — the database
state the `except` branch had built just before re-raising (it is
discarded by the rollback but kept observable here). -/
structure ImportOutcome where
  result : Except Err Unit
  finalDb : DB
  dbAtRaise : Option DB
deriving Repr

/-- `DataImportService.import_data` (services.py:642-717).  The method
body runs under the `@transaction.atomic` decorator; per Django's
documented semantics an exception leaving the decorated function rolls
the whole transaction back.  The model therefore: creates the process
row; runs the `try` block; on success commits its state; on failure
builds the `except` branch's state (status="inactive", error message
saved, services.py:712-715) as `dbAtRaise`, re-raises, and reverts the
database to its state at entry. -/
def import_data (db : DB) (tn : String) (eu file : Option String)
    (it : String) (src : Except Err (List Row × ColStruct)) (failAt : Nat) :
    ImportOutcome :=
  let p0 := mkProcess tn eu file
  let db1 : DB := { db with processes := db.processes ++ [p0] }
  match import_data_attempt db1 tn eu file it src failAt with
  | Except.ok db2 =>
    { result := Except.ok (), finalDb := db2, dbAtRaise := Option.none }
  | Except.error e =>
    let dbErr := saveProcess db1 tn (fun p =>
      { p with status := "inactive", error_message := some (errMessage e) })
    { result := Except.error e, finalDb := db, dbAtRaise := some dbErr }

/-! ## Async job adapter -/

/-- The observable milestones of `process_data_import_async`
(tasks.py:17-121), in source order of its success path. -/
inductive TaskEvent where
  | createAsyncTask
  | getOrCreateProcess
  | fetchSource
  | readFile
  | schemaInference
  | saveColumnStructure
  | insertRows
  | progress50
  | saveRecordCount
  | invalidateCaches
  | markSuccess
deriving DecidableEq, Repr

/-- Event trace of the success path of `process_data_import_async`
(tasks.py:37-101): create the `AsyncTask` row (l.45), get-or-create the
process (l.49), fetch/read the source — whose last step is
`analyze_column_structure`, the schema inference (l.58-66) —, save the
column structure (l.70-71), run `insert_data_orm` (l.73-75), set
`async_task.progress = 50` and save (l.77-79), save `record_count`
(l.81-83), invalidate caches (l.85), mark the job success at 100%
(l.87-91). -/
def process_data_import_async_trace (importType : String) : List TaskEvent :=
  [TaskEvent.createAsyncTask, TaskEvent.getOrCreateProcess] ++
  (if importType == "endpoint" then
    [TaskEvent.fetchSource, TaskEvent.schemaInference]
   else
    [TaskEvent.readFile, TaskEvent.schemaInference]) ++
  [TaskEvent.saveColumnStructure, TaskEvent.insertRows, TaskEvent.progress50,
   TaskEvent.saveRecordCount, TaskEvent.invalidateCaches, TaskEvent.markSuccess]

/-! ## Basic lemmas about the row-classification loop -/

theorem prepareLoop_nil (nm : List (String × String)) (ex : List Dict) :
    prepareLoop nm [] ex = ([], 0, 0) := rfl

theorem prepareLoop_notRecord (nm : List (String × String)) (rest : List Row)
    (ex : List Dict) :
    prepareLoop nm (Row.notRecord :: rest) ex =
      ((prepareLoop nm rest ex).1, (prepareLoop nm rest ex).2.1,
        (prepareLoop nm rest ex).2.2 + 1) := rfl

theorem prepareLoop_record_empty (nm : List (String × String)) (item : Dict)
    (rest : List Row) (ex : List Dict)
    (h : (normalizeRow nm item).isEmpty = true) :
    prepareLoop nm (Row.record item :: rest) ex =
      ((prepareLoop nm rest ex).1, (prepareLoop nm rest ex).2.1,
        (prepareLoop nm rest ex).2.2 + 1) := by
  simp only [prepareLoop, h, if_pos]

theorem prepareLoop_record_dup (nm : List (String × String)) (item : Dict)
    (rest : List Row) (ex : List Dict)
    (h : (normalizeRow nm item).isEmpty = false)
    (h2 : ex.contains (generate_row_hash (normalizeRow nm item)) = true) :
    prepareLoop nm (Row.record item :: rest) ex =
      ((prepareLoop nm rest ex).1, (prepareLoop nm rest ex).2.1 + 1,
        (prepareLoop nm rest ex).2.2) := by
  simp only [prepareLoop, h, h2, Bool.false_eq_true, if_false, if_pos]

theorem prepareLoop_record_new (nm : List (String × String)) (item : Dict)
    (rest : List Row) (ex : List Dict)
    (h : (normalizeRow nm item).isEmpty = false)
    (h2 : ex.contains (generate_row_hash (normalizeRow nm item)) = false) :
    prepareLoop nm (Row.record item :: rest) ex =
      (generate_row_hash (normalizeRow nm item) ::
         (prepareLoop nm rest (ex ++ [generate_row_hash (normalizeRow nm item)])).1,
        (prepareLoop nm rest (ex ++ [generate_row_hash (normalizeRow nm item)])).2.1,
        (prepareLoop nm rest (ex ++ [generate_row_hash (normalizeRow nm item)])).2.2) := by
  simp only [prepareLoop, h, h2, Bool.false_eq_true, if_false]

/-- Every input row lands in exactly one bucket: staged, duplicate or
error. -/
theorem prepareLoop_length (nm : List (String × String)) :
    ∀ (data : List Row) (ex : List Dict),
      (prepareLoop nm data ex).1.length + (prepareLoop nm data ex).2.1 +
        (prepareLoop nm data ex).2.2 = data.length
  | [], ex => by simp [prepareLoop_nil]
  | Row.notRecord :: rest, ex => by
    have ih := prepareLoop_length nm rest ex
    simp only [prepareLoop_notRecord, List.length_cons]
    omega
  | Row.record item :: rest, ex => by
    by_cases h : (normalizeRow nm item).isEmpty = true
    · have ih := prepareLoop_length nm rest ex
      simp only [prepareLoop_record_empty nm item rest ex h, List.length_cons]
      omega
    · have h' : (normalizeRow nm item).isEmpty = false := by
        simpa using h
      by_cases h2 : ex.contains (generate_row_hash (normalizeRow nm item)) = true
      · have ih := prepareLoop_length nm rest ex
        simp only [prepareLoop_record_dup nm item rest ex h' h2, List.length_cons]
        omega
      · have h2' : ex.contains (generate_row_hash (normalizeRow nm item)) = false := by
          simpa using h2
        have ih := prepareLoop_length nm rest
          (ex ++ [generate_row_hash (normalizeRow nm item)])
        simp only [prepareLoop_record_new nm item rest ex h' h2', List.length_cons]
        omega

/-- C6: for every row list, column structure, storage state, concurrency
window and bulk-insert behaviour, the statistics returned by
`insert_data_orm` satisfy `total = inserted + duplicates + errors`, and
this total equals the number of input rows — also on the branch where
the bulk insert fails and the staged rows are re-counted as errors. -/
theorem insert_stats_partition_rows (db : List Dict) (data : List Row)
    (cs : ColStruct) (concurrent : List Dict) (failAt : Nat) :
    (insert_data_orm db data cs concurrent failAt).1.total =
        (insert_data_orm db data cs concurrent failAt).1.inserted +
        (insert_data_orm db data cs concurrent failAt).1.duplicates +
        (insert_data_orm db data cs concurrent failAt).1.errors ∧
      (insert_data_orm db data cs concurrent failAt).1.total = data.length := by
  have hlen := prepareLoop_length (buildNameMapping cs) data db
  unfold insert_data_orm
  by_cases hd : data.isEmpty = true
  · have : data = [] := by simpa [List.isEmpty_iff] using hd
    subst this
    simp
  · simp only [hd, Bool.false_eq_true, if_false]
    rcases hp : prepareLoop (buildNameMapping cs) data db with ⟨staged, dups, errs⟩
    rw [hp] at hlen
    simp only at hlen
    by_cases hs : staged.isEmpty = true
    · have hs0 : staged = [] := by simpa [List.isEmpty_iff] using hs
      subst hs0
      simp only [List.isEmpty_nil, if_pos]
      constructor
      · trivial
      · simp only [List.length_nil] at hlen
        omega
    · simp only [hs, Bool.false_eq_true, if_false]
      by_cases hf : (staged.length + 999) / 1000 ≤ failAt
      · simp only [hf, if_pos]
        exact ⟨trivial, by omega⟩
      · simp only [hf, if_false]
        exact ⟨trivial, by omega⟩

/-- A row that survives the per-row checks of `insert_data_orm`: a dict
with at least one field mapped by `name_mapping`. -/
def validRow (nm : List (String × String)) : Row → Bool
  | Row.record d => !(normalizeRow nm d).isEmpty
  | Row.notRecord => false

theorem mem_insertIgnore_of_mem (t : List Dict) (h x : Dict) (hx : x ∈ t) :
    x ∈ insertIgnore t h := by
  unfold insertIgnore
  split
  · exact hx
  · exact List.mem_append_left _ hx

theorem self_mem_insertIgnore (t : List Dict) (h : Dict) :
    h ∈ insertIgnore t h := by
  unfold insertIgnore
  split
  · next hc => exact List.elem_iff.mp hc
  · exact List.mem_append_right _ (List.mem_singleton.mpr rfl)

theorem mem_foldl_insertIgnore_of_mem_init :
    ∀ (l t : List Dict) (x : Dict), x ∈ t → x ∈ l.foldl insertIgnore t
  | [], _, _, hx => hx
  | h :: rest, t, x, hx =>
    mem_foldl_insertIgnore_of_mem_init rest (insertIgnore t h) x
      (mem_insertIgnore_of_mem t h x hx)

theorem mem_foldl_insertIgnore_of_mem :
    ∀ (l t : List Dict) (x : Dict), x ∈ l → x ∈ l.foldl insertIgnore t
  | [], _, _, hx => by cases hx
  | h :: rest, t, x, hx => by
    rcases List.mem_cons.mp hx with h1 | h1
    · subst h1
      exact mem_foldl_insertIgnore_of_mem_init rest (insertIgnore t x) x
        (self_mem_insertIgnore t x)
    · exact mem_foldl_insertIgnore_of_mem rest (insertIgnore t h) x h1

/-- Every valid row's hash ends up either in the preloaded set or among
the staged records. -/
theorem prepareLoop_covers (nm : List (String × String)) :
    ∀ (data : List Row) (ex : List Dict) (d : Dict),
      Row.record d ∈ data → (normalizeRow nm d).isEmpty = false →
      normalizeRow nm d ∈ ex ∨ normalizeRow nm d ∈ (prepareLoop nm data ex).1
  | [], _, _, hd, _ => by cases hd
  | Row.notRecord :: rest, ex, d, hd, hne => by
    rcases List.mem_cons.mp hd with h1 | h1
    · cases h1
    · rw [prepareLoop_notRecord]
      exact prepareLoop_covers nm rest ex d h1 hne
  | Row.record item :: rest, ex, d, hd, hne => by
    by_cases hi : (normalizeRow nm item).isEmpty = true
    · rw [prepareLoop_record_empty nm item rest ex hi]
      rcases List.mem_cons.mp hd with h1 | h1
      · cases h1
        rw [hi] at hne
        cases hne
      · exact prepareLoop_covers nm rest ex d h1 hne
    · have hi' : (normalizeRow nm item).isEmpty = false := by simpa using hi
      by_cases hc : ex.contains (generate_row_hash (normalizeRow nm item)) = true
      · rw [prepareLoop_record_dup nm item rest ex hi' hc]
        rcases List.mem_cons.mp hd with h1 | h1
        · cases h1
          left
          exact List.elem_iff.mp hc
        · exact prepareLoop_covers nm rest ex d h1 hne
      · have hc' : ex.contains (generate_row_hash (normalizeRow nm item)) = false := by
          simpa using hc
        rw [prepareLoop_record_new nm item rest ex hi' hc']
        rcases List.mem_cons.mp hd with h1 | h1
        · cases h1
          right
          exact List.mem_cons_self _ _
        · rcases prepareLoop_covers nm rest
            (ex ++ [generate_row_hash (normalizeRow nm item)]) d h1 hne with h2 | h2
          · rcases List.mem_append.mp h2 with h3 | h3
            · exact Or.inl h3
            · right
              rw [List.mem_singleton.mp h3]
              exact List.mem_cons_self _ _
          · exact Or.inr (List.mem_cons_of_mem _ h2)

/-- When the preloaded hash set already covers every valid row, the loop
stages nothing: valid rows all count as duplicates, the rest as errors. -/
theorem prepareLoop_all_covered (nm : List (String × String)) :
    ∀ (data : List Row) (ex : List Dict),
      (∀ d : Dict, Row.record d ∈ data → (normalizeRow nm d).isEmpty = false →
        normalizeRow nm d ∈ ex) →
      prepareLoop nm data ex =
        ([], (data.filter (validRow nm)).length,
          (data.filter (fun r => !(validRow nm r))).length)
  | [], ex, _ => by simp [prepareLoop_nil]
  | Row.notRecord :: rest, ex, hcov => by
    rw [prepareLoop_notRecord,
      prepareLoop_all_covered nm rest ex
        (fun d hd hne => hcov d (List.mem_cons_of_mem _ hd) hne)]
    simp [validRow]
  | Row.record item :: rest, ex, hcov => by
    by_cases hi : (normalizeRow nm item).isEmpty = true
    · rw [prepareLoop_record_empty nm item rest ex hi,
        prepareLoop_all_covered nm rest ex
          (fun d hd hne => hcov d (List.mem_cons_of_mem _ hd) hne)]
      simp [validRow, hi]
    · have hi' : (normalizeRow nm item).isEmpty = false := by simpa using hi
      have hmem : normalizeRow nm item ∈ ex :=
        hcov item (List.mem_cons_self _ _) hi'
      have hc : ex.contains (generate_row_hash (normalizeRow nm item)) = true :=
        List.elem_eq_true_of_mem hmem
      rw [prepareLoop_record_dup nm item rest ex hi' hc,
        prepareLoop_all_covered nm rest ex
          (fun d hd hne => hcov d (List.mem_cons_of_mem _ hd) hne)]
      simp [validRow, hi']

/-- Filter partition: valid and invalid rows together count the list. -/
theorem filter_length_partition {α : Type} (p : α → Bool) :
    ∀ l : List α, (l.filter p).length + (l.filter (fun a => !(p a))).length = l.length
  | [] => rfl
  | a :: l => by
    have ih := filter_length_partition p l
    by_cases h : p a = true
    · simp [List.filter_cons, h]
      omega
    · have h' : p a = false := by simpa using h
      simp [List.filter_cons, h']
      omega

/-- After a run of `insert_data_orm` whose bulk insert does not fail
(no concurrent writers), every valid input row's hash is stored. -/
theorem insert_run_covers (db : List Dict) (data : List Row) (cs : ColStruct)
    (f1 : Nat) (h1 : data.length ≤ f1) (d : Dict)
    (hd : Row.record d ∈ data)
    (hne : (normalizeRow (buildNameMapping cs) d).isEmpty = false) :
    normalizeRow (buildNameMapping cs) d ∈ (insert_data_orm db data cs [] f1).2 := by
  have hdata : data.isEmpty = false := by
    cases data
    · cases hd
    · rfl
  unfold insert_data_orm
  simp only [hdata, Bool.false_eq_true, if_false]
  rcases hp : prepareLoop (buildNameMapping cs) data db with ⟨staged, dups, errs⟩
  have hc := prepareLoop_covers (buildNameMapping cs) data db d hd hne
  rw [hp] at hc
  simp only at hc
  by_cases hs : staged.isEmpty = true
  · have hs0 : staged = [] := by simpa [List.isEmpty_iff] using hs
    subst hs0
    simp only [List.isEmpty_nil, if_pos]
    rcases hc with h | h
    · exact h
    · cases h
  · have hs' : staged.isEmpty = false := by simpa using hs
    simp only [hs', Bool.false_eq_true, if_false]
    have hlen := prepareLoop_length (buildNameMapping cs) data db
    rw [hp] at hlen
    simp only at hlen
    have hs1 : staged ≠ [] := by simpa [List.isEmpty_iff] using hs
    have hsl : 1 ≤ staged.length := List.length_pos.mpr hs1
    have hb : (staged.length + 999) / 1000 ≤ f1 := by omega
    simp only [hb, if_pos]
    rcases hc with h | h
    · exact mem_foldl_insertIgnore_of_mem_init staged (db ++ []) _
        (by simpa using h)
    · exact mem_foldl_insertIgnore_of_mem staged (db ++ []) _ h

/-- C5 (amended): running `insert_data_orm` twice with the same row set
and column structure against the same process (no bulk failure, no
concurrent writer) yields on the second run `inserted = 0`, every valid
row counted as a duplicate, every invalid row counted as an error, and
`total` the row count; `duplicates = total` exactly holds whenever every
row is a dict with at least one mapped field. -/
theorem second_run_all_duplicates (db : List Dict) (data : List Row)
    (cs : ColStruct) (f1 f2 : Nat) (h1 : data.length ≤ f1)
    (h2 : data.length ≤ f2) :
    (insert_data_orm (insert_data_orm db data cs [] f1).2 data cs [] f2).1.inserted
        = 0 ∧
      (insert_data_orm (insert_data_orm db data cs [] f1).2 data cs [] f2).1.duplicates
        = (data.filter (validRow (buildNameMapping cs))).length ∧
      (insert_data_orm (insert_data_orm db data cs [] f1).2 data cs [] f2).1.errors
        = (data.filter (fun r => !(validRow (buildNameMapping cs) r))).length ∧
      (insert_data_orm (insert_data_orm db data cs [] f1).2 data cs [] f2).1.total
        = data.length ∧
      ((∀ r ∈ data, validRow (buildNameMapping cs) r = true) →
        (insert_data_orm (insert_data_orm db data cs [] f1).2 data cs [] f2).1.duplicates
          = (insert_data_orm (insert_data_orm db data cs [] f1).2 data cs [] f2).1.total) := by
  have hpart := filter_length_partition (validRow (buildNameMapping cs)) data
  by_cases hdata : data.isEmpty = true
  · have h0 : data = [] := by simpa [List.isEmpty_iff] using hdata
    subst h0
    simp [insert_data_orm]
  · have hdata' : data.isEmpty = false := by simpa using hdata
    have hcov : ∀ d : Dict, Row.record d ∈ data →
        (normalizeRow (buildNameMapping cs) d).isEmpty = false →
        normalizeRow (buildNameMapping cs) d ∈ (insert_data_orm db data cs [] f1).2 :=
      fun d hd hne => insert_run_covers db data cs f1 h1 d hd hne
    have hclass := prepareLoop_all_covered (buildNameMapping cs) data
      (insert_data_orm db data cs [] f1).2 hcov
    generalize hdb1 : (insert_data_orm db data cs [] f1).2 = db1 at hclass ⊢
    unfold insert_data_orm
    simp only [hdata', Bool.false_eq_true, if_false]
    rw [hclass]
    simp only [List.isEmpty_nil, if_pos]
    refine ⟨trivial, trivial, trivial, by omega, ?_⟩
    intro hall
    have hE : data.filter (fun r => !(validRow (buildNameMapping cs) r)) = [] := by
      rw [List.filter_eq_nil_iff]
      intro a ha
      simp [hall a ha]
    rw [hE] at hpart ⊢
    simp only [List.length_nil]
    omega

/-- A two-column structure mapping original names `a`/`b` to themselves. -/
def colsAB : ColStruct :=
  [("a", { original_name := "a", type_ := "INTEGER" }),
   ("b", { original_name := "b", type_ := "TEXT" })]

/-- A batch with one valid row and one empty-dict row (no mapped field,
counted as an error on every run). -/
def rowsMixed : List Row := [Row.record [("a", PyVal.pyInt 1)], Row.record []]

/-- A batch of two valid rows. -/
def rowsValid : List Row :=
  [Row.record [("a", PyVal.pyInt 1)], Row.record [("a", PyVal.pyInt 2)]]

/-- A batch of a single valid row. -/
def oneRow : List Row := [Row.record [("a", PyVal.pyInt 1)]]

/-- C5 (counterexample): on a row set containing an error row, the
second identical run of `insert_data_orm` reports `inserted = 0` but
`duplicates (= 1) ≠ total (= 2)` — the error row is counted as an error
again, not as a duplicate, refuting `duplicates == total` as stated. -/
theorem second_run_duplicates_ne_total_cex :
    (insert_data_orm (insert_data_orm [] rowsMixed colsAB [] 5).2 rowsMixed
        colsAB [] 5).1.inserted = 0 ∧
      (insert_data_orm (insert_data_orm [] rowsMixed colsAB [] 5).2 rowsMixed
        colsAB [] 5).1.duplicates = 1 ∧
      (insert_data_orm (insert_data_orm [] rowsMixed colsAB [] 5).2 rowsMixed
        colsAB [] 5).1.total = 2 ∧
      ¬ ((insert_data_orm (insert_data_orm [] rowsMixed colsAB [] 5).2 rowsMixed
        colsAB [] 5).1.duplicates =
        (insert_data_orm (insert_data_orm [] rowsMixed colsAB [] 5).2 rowsMixed
          colsAB [] 5).1.total) := by
  decide

/-- Witness for `second_run_all_duplicates` at a concrete all-valid
batch: the second run inserts nothing and reports every row as a
duplicate. -/
theorem second_run_all_duplicates_witness :
    rowsValid.length ≤ 5 ∧
      (insert_data_orm (insert_data_orm [] rowsValid colsAB [] 5).2 rowsValid
        colsAB [] 5).1.inserted = 0 ∧
      (insert_data_orm (insert_data_orm [] rowsValid colsAB [] 5).2 rowsValid
        colsAB [] 5).1.duplicates =
        (insert_data_orm (insert_data_orm [] rowsValid colsAB [] 5).2 rowsValid
          colsAB [] 5).1.total := by
  have h := second_run_all_duplicates [] rowsValid colsAB 5 5 (by decide) (by decide)
  exact ⟨by decide, h.1, h.2.2.2.2 (by decide)⟩

/-- C10: when no batch's `bulk_create` raises, the `inserted` statistic
is exactly the number of staged records (`records_inserted +=
len(batch)` per batch), independent of how many rows the
`ignore_conflicts=True` insert actually persisted; concretely, with a
conflicting hash written by a concurrent writer between the preload and
the bulk insert, the call reports `inserted = 1` while the stored table
gained no row beyond the concurrent writer's one. -/
theorem inserted_counts_staged_even_if_conflicts_dropped (db : List Dict)
    (data : List Row) (cs : ColStruct) (concurrent : List Dict) (f : Nat)
    (hf : data.length ≤ f) :
    (insert_data_orm db data cs concurrent f).1.inserted
        = (prepareLoop (buildNameMapping cs) data db).1.length ∧
      ((insert_data_orm [] oneRow colsAB [[("a", PyVal.pyInt 1)]] 1).1.inserted = 1 ∧
        (insert_data_orm [] oneRow colsAB [[("a", PyVal.pyInt 1)]] 1).2
          = [[("a", PyVal.pyInt 1)]]) := by
  refine ⟨?_, by decide, by decide⟩
  by_cases hdata : data.isEmpty = true
  · have h0 : data = [] := by simpa [List.isEmpty_iff] using hdata
    subst h0
    simp [insert_data_orm, prepareLoop_nil]
  · have hdata' : data.isEmpty = false := by simpa using hdata
    unfold insert_data_orm
    simp only [hdata', Bool.false_eq_true, if_false]
    rcases hp : prepareLoop (buildNameMapping cs) data db with ⟨staged, dups, errs⟩
    simp only
    by_cases hs : staged.isEmpty = true
    · have hs0 : staged = [] := by simpa [List.isEmpty_iff] using hs
      subst hs0
      simp
    · have hs' : staged.isEmpty = false := by simpa using hs
      have hlen := prepareLoop_length (buildNameMapping cs) data db
      rw [hp] at hlen
      simp only at hlen
      have hs1 : staged ≠ [] := by simpa [List.isEmpty_iff] using hs
      have hsl : 1 ≤ staged.length := List.length_pos.mpr hs1
      have hb : (staged.length + 999) / 1000 ≤ f := by omega
      simp only [hs', Bool.false_eq_true, if_false, hb, if_pos]

/-- Witness for `inserted_counts_staged_even_if_conflicts_dropped` at a
concrete one-row batch. -/
theorem inserted_counts_staged_witness :
    oneRow.length ≤ 1 ∧
      (insert_data_orm [] oneRow colsAB [] 1).1.inserted
        = (prepareLoop (buildNameMapping colsAB) oneRow []).1.length := by
  have h := inserted_counts_staged_even_if_conflicts_dropped [] oneRow colsAB [] 1
    (by decide)
  exact ⟨by decide, h.1⟩

/-- The empty database. -/
def emptyDB : DB := { processes := [], rows := [] }

/-- C1 (counterexample): a failing import (invalid import kind, any
source oracle) raises its error, yet the final database holds no
`DataImportProcess` at all — the claim's "still persisted and visible
with status=inactive" fails; `dbAtRaise` shows the inactive write the
`except` branch made before the rollback discarded it. -/
theorem import_failure_no_inactive_process_cex :
    (import_data emptyDB "t" Option.none Option.none "bogus"
        (Except.ok ([], [])) 1).result = Except.error Err.badImportType ∧
      (import_data emptyDB "t" Option.none Option.none "bogus"
        (Except.ok ([], [])) 1).finalDb.processes = [] ∧
      (import_data emptyDB "t" Option.none Option.none "bogus"
        (Except.ok ([], [])) 1).dbAtRaise =
        some { processes := [{ endpoint_url := "file:unknown", table_name := "t",
                               status := "inactive",
                               error_message := some (errMessage Err.badImportType),
                               record_count := 0, column_structure := [] }],
               rows := [] } := by
  exact ⟨rfl, rfl, rfl⟩

/-- C1 (amended): whenever any step after process creation fails,
`import_data` raises its wrapped error and the whole transaction —
process creation, partially-inserted rows, and the final
status=inactive/error-message write alike — is rolled back: the database
is exactly the one from before the call, so no `ImportProcess` row
remains visible. -/
theorem import_failure_rolls_back_everything (db : DB) (tn : String)
    (eu file : Option String) (it : String)
    (src : Except Err (List Row × ColStruct)) (failAt : Nat) (e : Err)
    (h : (import_data db tn eu file it src failAt).result = Except.error e) :
    (import_data db tn eu file it src failAt).finalDb = db := by
  unfold import_data at h ⊢
  simp only [] at h ⊢
  cases hA : import_data_attempt
      { db with processes := db.processes ++ [mkProcess tn eu file] }
      tn eu file it src failAt with
  | ok db2 =>
    rw [hA] at h
    simp at h
  | error e2 =>
    simp only [hA]

/-- Witness for `import_failure_rolls_back_everything` at a concrete
failing call. -/
theorem import_failure_rolls_back_witness :
    (import_data emptyDB "t" Option.none Option.none "bogus"
        (Except.ok ([], [])) 1).result = Except.error Err.badImportType ∧
      (import_data emptyDB "t" Option.none Option.none "bogus"
        (Except.ok ([], [])) 1).finalDb = emptyDB :=
  ⟨rfl, import_failure_rolls_back_everything emptyDB "t" Option.none Option.none
    "bogus" (Except.ok ([], [])) 1 Err.badImportType rfl⟩

/-- C9 (counterexample): in the async job's success trace the
`insert_data_orm` call (position 5) comes before the 50% progress update
(position 6), so the checkpoint does not occur before the final row
insertion step as claimed. -/
theorem progress50_not_before_insert_cex :
    (process_data_import_async_trace "endpoint").indexOf TaskEvent.insertRows = 5 ∧
      (process_data_import_async_trace "endpoint").indexOf TaskEvent.progress50 = 6 ∧
      ¬ ((process_data_import_async_trace "endpoint").indexOf TaskEvent.progress50 <
          (process_data_import_async_trace "endpoint").indexOf TaskEvent.insertRows) := by
  decide

/-- C9 (amended): in every execution of the asynchronous import job the
~50% progress update happens after schema inference AND after the row
insertion step, and before the final record-count update and the success
mark. -/
theorem progress50_after_insert (it : String) :
    (process_data_import_async_trace it).indexOf TaskEvent.schemaInference <
        (process_data_import_async_trace it).indexOf TaskEvent.insertRows ∧
      (process_data_import_async_trace it).indexOf TaskEvent.insertRows <
        (process_data_import_async_trace it).indexOf TaskEvent.progress50 ∧
      (process_data_import_async_trace it).indexOf TaskEvent.progress50 <
        (process_data_import_async_trace it).indexOf TaskEvent.saveRecordCount ∧
      (process_data_import_async_trace it).indexOf TaskEvent.saveRecordCount <
        (process_data_import_async_trace it).indexOf TaskEvent.markSuccess := by
  by_cases h : (it == "endpoint") = true
  · simp only [process_data_import_async_trace, h, if_pos]
    decide
  · have h' : (it == "endpoint") = false := by simpa using h
    simp only [process_data_import_async_trace, h', Bool.false_eq_true, if_false]
    decide

/-- C8: endpoint response shape handling — an object body yields the
value of its first list-valued field as the row collection (failing when
that list is empty); an object without a list-valued field yields the
single-row collection containing exactly that object; a body that is
neither list nor object is rejected; a successful normalization is never
empty; and a shape failure propagates out of the fetch operation. -/
theorem endpoint_shape_normalization (parse : String → Option PyDateTime)
    (fields : List (String × Json)) (l : List Json) (body : Json) :
    (firstListField fields = some l → l ≠ [] →
        normalize_response_shape (Json.jobj fields) = Except.ok l) ∧
      (firstListField fields = some [] →
        normalize_response_shape (Json.jobj fields) = Except.error Err.emptyList) ∧
      (firstListField fields = Option.none →
        normalize_response_shape (Json.jobj fields)
          = Except.ok [Json.jobj fields]) ∧
      ((∀ a, body ≠ Json.jarr a) → (∀ fs, body ≠ Json.jobj fs) →
        normalize_response_shape body = Except.error Err.badShape) ∧
      (∀ l', normalize_response_shape body = Except.ok l' → l' ≠ []) ∧
      (∀ e, normalize_response_shape body = Except.error e →
        fetch_data_from_endpoint parse body = Except.error e) := by
  refine ⟨?_, ?_, ?_, ?_, ?_, ?_⟩
  · intro h hne
    have hie : l.isEmpty = false := by
      cases l
      · cases hne rfl
      · rfl
    simp [normalize_response_shape, h, hie]
  · intro h
    simp [normalize_response_shape, h]
  · intro h
    simp [normalize_response_shape, h]
  · intro ha hb
    cases body with
    | null => rfl
    | jbool b => rfl
    | jnum n => rfl
    | jstr s => rfl
    | jarr a => exact absurd rfl (ha a)
    | jobj fs => exact absurd rfl (hb fs)
  · intro l' h
    cases body with
    | jobj fs =>
      cases hf : firstListField fs with
      | some l2 =>
        by_cases hie : l2.isEmpty = true
        · simp [normalize_response_shape, hf, hie] at h
        · have hie' : l2.isEmpty = false := by simpa using hie
          simp [normalize_response_shape, hf, hie'] at h
          subst h
          simpa [List.isEmpty_iff] using hie'
      | none =>
        simp [normalize_response_shape, hf] at h
        subst h
        simp
    | jarr a =>
      by_cases hie : a.isEmpty = true
      · simp [normalize_response_shape, hie] at h
      · have hie' : a.isEmpty = false := by simpa using hie
        simp [normalize_response_shape, hie'] at h
        subst h
        simpa [List.isEmpty_iff] using hie'
    | null => simp [normalize_response_shape] at h
    | jbool b => simp [normalize_response_shape] at h
    | jnum n => simp [normalize_response_shape] at h
    | jstr s => simp [normalize_response_shape] at h
  · intro e h
    simp [fetch_data_from_endpoint, h]

/-- Witness for `endpoint_shape_normalization` at concrete bodies:
`\x7b"meta": "m", "items": [1], "more": []\x7d` yields the `items` list;
an object whose first list field is empty fails; a bare object becomes a
one-row collection; a number body fails the shape check and that failure
propagates out of the fetch. -/
theorem endpoint_shape_normalization_witness :
    normalize_response_shape
        (Json.jobj [("meta", Json.jstr "m"), ("items", Json.jarr [Json.jnum 1]),
          ("more", Json.jarr [])]) = Except.ok [Json.jnum 1] ∧
      normalize_response_shape (Json.jobj [("items", Json.jarr [])])
        = Except.error Err.emptyList ∧
      normalize_response_shape (Json.jobj [("a", Json.jnum 1)])
        = Except.ok [Json.jobj [("a", Json.jnum 1)]] ∧
      normalize_response_shape (Json.jnum 7) = Except.error Err.badShape ∧
      fetch_data_from_endpoint (fun _ => Option.none) (Json.jnum 7)
        = Except.error Err.badShape := by
  have t1 := (endpoint_shape_normalization (fun _ => Option.none)
    [("meta", Json.jstr "m"), ("items", Json.jarr [Json.jnum 1]),
      ("more", Json.jarr [])] [Json.jnum 1] Json.null).1 rfl (by simp)
  have t2 := (endpoint_shape_normalization (fun _ => Option.none)
    [("items", Json.jarr [])] [] Json.null).2.1 rfl
  have t3 := (endpoint_shape_normalization (fun _ => Option.none)
    [("a", Json.jnum 1)] [] (Json.jobj [("a", Json.jnum 1)])).2.2.1 rfl
  have t4 := (endpoint_shape_normalization (fun _ => Option.none)
    [] [] (Json.jnum 7)).2.2.2.1
    (fun a h => Json.noConfusion h) (fun fs h => Json.noConfusion h)
  have t5 := (endpoint_shape_normalization (fun _ => Option.none)
    [] [] (Json.jnum 7)).2.2.2.2.2 Err.badShape t4
  exact ⟨t1, t2, t3, t4, t5⟩

/-- `Except` success recognizer. -/
def isOkE {ε α : Type} : Except ε α → Bool
  | Except.ok _ => true
  | Except.error _ => false

/-- A date parser that fails on every string (the claims about limits do
not involve dates). -/
def parseNone : String → Option PyDateTime := fun _ => Option.none

/-- A one-row DataFrame with 101 columns — over the column limit. -/
def df101 : DataFrame :=
  { cols := (List.range 101).map (fun i => "c" ++ toString i),
    cells := [(List.range 101).map (fun i => PyVal.pyInt i)] }

/-- A one-column DataFrame with 100001 rows — over the row limit. -/
def dfBig : DataFrame :=
  { cols := ["a"], cells := List.replicate 100001 [PyVal.pyInt 0] }

/-- An endpoint body with 100001 rows. -/
def bodyBig : Json := Json.jarr (List.replicate 100001 Json.null)

/-- An endpoint body whose single row is an object with 101 fields. -/
def bodyWide : Json :=
  Json.jarr [Json.jobj ((List.range 101).map
    (fun i => ("f" ++ toString i, Json.jnum 0)))]

/-- C2 (counterexample): a 101-column file is rejected by the
synchronous path but sails through the asynchronous path
(`process_file_data_from_path`), which contains no limit check at all —
the limit check is not applied on every input source. -/
theorem async_path_skips_limit_checks_cex :
    df101.cols.length = 101 ∧
      process_file_data parseNone df101 = Except.error (Err.limitCols 101 100) ∧
      isOkE (process_file_data_from_path parseNone df101) = true := by
  refine ⟨by simp [df101], ?_, rfl⟩
  have hc : df101.cols.length = 101 := by simp [df101]
  have hr : df101.cells.length = 1 := by simp [df101]
  unfold process_file_data
  rw [if_neg (by simp [dfEmpty, df101]), if_neg (by omega), if_pos (by omega),
    hc]

/-- C2 (amended): the synchronous file path enforces the 100,000-row and
100-column limits on the DataFrame shape; the endpoint path enforces the
row limit on the normalized collection and the column limit only on the
first record, and only when it is a JSON object; the asynchronous file
path enforces no limit and succeeds on any non-empty DataFrame. -/
theorem limit_checks_per_path (parse : String → Option PyDateTime)
    (df : DataFrame) (body : Json) (l : List Json)
    (fields : List (String × Json)) (rest : List Json) :
    (dfEmpty df = false → 100000 < df.cells.length →
        process_file_data parse df
          = Except.error (Err.limitRows df.cells.length 100000)) ∧
      (dfEmpty df = false → df.cells.length ≤ 100000 → 100 < df.cols.length →
        process_file_data parse df
          = Except.error (Err.limitCols df.cols.length 100)) ∧
      (dfEmpty df = false →
        isOkE (process_file_data_from_path parse df) = true) ∧
      (normalize_response_shape body = Except.ok l → 100000 < l.length →
        fetch_data_from_endpoint parse body
          = Except.error (Err.limitRows l.length 100000)) ∧
      (normalize_response_shape body = Except.ok (Json.jobj fields :: rest) →
        (Json.jobj fields :: rest).length ≤ 100000 → 100 < fields.length →
        fetch_data_from_endpoint parse body
          = Except.error (Err.limitCols fields.length 100)) := by
  refine ⟨?_, ?_, ?_, ?_, ?_⟩
  · intro h0 h1
    unfold process_file_data
    rw [if_neg (by simp [h0]), if_pos (by omega)]
  · intro h0 h1 h2
    unfold process_file_data
    rw [if_neg (by simp [h0]), if_neg (by omega), if_pos (by omega)]
  · intro h0
    unfold process_file_data_from_path
    rw [if_neg (by simp [h0])]
    rfl
  · intro h hl
    unfold fetch_data_from_endpoint
    rw [h]
    simp only
    rw [if_pos (by omega)]
  · intro h hlen hcols
    unfold fetch_data_from_endpoint
    rw [h]
    simp only
    rw [if_neg (by omega)]
    rw [if_pos (by omega)]

/-- Witness for `limit_checks_per_path` at concrete oversized inputs:
each enforced limit fires, and the asynchronous path accepts the
101-column file. -/
theorem limit_checks_per_path_witness :
    process_file_data parseNone dfBig
        = Except.error (Err.limitRows 100001 100000) ∧
      process_file_data parseNone df101
        = Except.error (Err.limitCols 101 100) ∧
      isOkE (process_file_data_from_path parseNone df101) = true ∧
      fetch_data_from_endpoint parseNone bodyBig
        = Except.error (Err.limitRows 100001 100000) ∧
      fetch_data_from_endpoint parseNone bodyWide
        = Except.error (Err.limitCols 101 100) := by
  have hbig : dfBig.cells.length = 100001 := by
    show (List.replicate 100001 [PyVal.pyInt 0]).length = 100001
    rw [List.length_replicate]
  have h1 := (limit_checks_per_path parseNone dfBig Json.null [] [] []).1
    rfl (by omega)
  rw [hbig] at h1
  have hc : df101.cols.length = 101 := by
    show ((List.range 101).map (fun i => "c" ++ toString i)).length = 101
    rw [List.length_map, List.length_range]
  have hr : df101.cells.length = 1 := rfl
  have h2 := (limit_checks_per_path parseNone df101 Json.null [] [] []).2.1
    rfl (by omega) (by omega)
  rw [hc] at h2
  have h3 := (limit_checks_per_path parseNone df101 Json.null [] [] []).2.2.1 rfl
  have hnb : normalize_response_shape bodyBig
      = Except.ok (List.replicate 100001 Json.null) := by
    unfold normalize_response_shape bodyBig
    simp only
    rw [if_neg (by rw [List.isEmpty_iff, List.replicate_eq_nil_iff]; omega)]
  have hlb : (List.replicate 100001 Json.null).length = 100001 := by
    rw [List.length_replicate]
  have h4 := (limit_checks_per_path parseNone dfBig bodyBig
    (List.replicate 100001 Json.null) [] []).2.2.2.1 hnb (by omega)
  rw [hlb] at h4
  have hw : normalize_response_shape bodyWide
      = Except.ok [Json.jobj ((List.range 101).map
          (fun i => ("f" ++ toString i, Json.jnum 0)))] := rfl
  have hwf : ((List.range 101).map
      (fun i => ("f" ++ toString i, Json.jnum 0))).length = 101 := by
    rw [List.length_map, List.length_range]
  have h5 := (limit_checks_per_path parseNone dfBig bodyWide []
    ((List.range 101).map (fun i => ("f" ++ toString i, Json.jnum 0)))
    []).2.2.2.2 hw (by simp) (by omega)
  rw [hwf] at h5
  exact ⟨h1, h2, h3, h4, h5⟩

/-! ## Type-detection lemmas -/

theorem foldl_best_const (L : List String) (x : String) :
    ∀ l : List String, (∀ y ∈ l, y = x) →
      l.foldl
        (fun best y => if countOcc L y > countOcc L best then y else best) x = x
  | [], _ => rfl
  | y :: t, h => by
    have hy : y = x := h y (List.mem_cons_self _ _)
    subst hy
    simp only [List.foldl_cons]
    rw [if_neg (by omega)]
    exact foldl_best_const L y t (fun z hz => h z (List.mem_cons_of_mem _ hz))

/-- `max(set(types), key=types.count)` on a sample with one distinct
type name. -/
theorem mostCommon_all_eq (x : String) (l : List String)
    (hne : l ≠ []) (h : ∀ y ∈ l, y = x) : mostCommon l = x := by
  cases l with
  | nil => cases hne rfl
  | cons t ts =>
    have ht : t = x := h t (List.mem_cons_self _ _)
    subst ht
    exact foldl_best_const (t :: ts) t (t :: ts) h

/-- A column of integers (any non-zero number of them) is detected as
`INTEGER`. -/
theorem detect_all_ints (parse : String → Option PyDateTime) :
    ∀ (ns : List Int), ns ≠ [] →
      detect_column_type parse (ns.map PyVal.pyInt) = "INTEGER"
  | [], hne => by cases hne rfl
  | a :: t, _ => by
    unfold detect_column_type
    have hfilter : (PyVal.pyInt a :: t.map PyVal.pyInt).filter
        (fun v => !(isNoneVal v)) = PyVal.pyInt a :: t.map PyVal.pyInt := by
      rw [List.filter_eq_self]
      intro v hv
      rcases List.mem_cons.mp hv with h1 | h1
      · subst h1; rfl
      · rcases List.mem_map.mp h1 with ⟨b, _, hb⟩
        rw [← hb]; rfl
    simp only [List.map_cons, hfilter]
    rw [if_neg (by simp)]
    rw [List.take_succ_cons]
    have hany : (PyVal.pyInt a :: (t.map PyVal.pyInt).take 99).any isTsVal
        = false := by
      rw [List.any_eq_false]
      intro v hv
      rcases List.mem_cons.mp hv with h1 | h1
      · subst h1; simp [isTsVal]
      · rcases List.mem_map.mp (List.mem_of_mem_take h1) with ⟨b, _, hb⟩
        rw [← hb]; simp [isTsVal]
    rw [hany]
    rw [if_neg (by simp)]
    have hall : (PyVal.pyInt a :: (t.map PyVal.pyInt).take 99).all isStrVal
        = false := by
      simp [isStrVal]
    rw [hall]
    rw [if_neg (by simp)]
    unfold fallbackType
    have hmc : mostCommon ((PyVal.pyInt a ::
        (t.map PyVal.pyInt).take 99).map typeName) = "int" := by
      apply mostCommon_all_eq
      · simp
      · intro y hy
        rcases List.mem_map.mp hy with ⟨v, hv, hvy⟩
        rcases List.mem_cons.mp hv with h1 | h1
        · rw [← hvy, h1]; rfl
        · rcases List.mem_map.mp (List.mem_of_mem_take h1) with ⟨b, _, hb⟩
          rw [← hvy, ← hb]; rfl
    rw [hmc]
    rfl

/-- An all-null column (any length, including empty) is detected as
`TEXT`. -/
theorem detect_all_none (parse : String → Option PyDateTime)
    (vs : List PyVal) (h : vs.all isNoneVal = true) :
    detect_column_type parse vs = "TEXT" := by
  unfold detect_column_type
  have hf : vs.filter (fun v => !(isNoneVal v)) = [] := by
    rw [List.filter_eq_nil_iff]
    intro a ha
    have := List.all_eq_true.mp h a ha
    simp [this]
  rw [hf]
  rfl

/-- A column of twenty equal strings that all parse as the same
date/time is detected from that datetime's time component. -/
theorem detect_all_same_string (parse : String → Option PyDateTime)
    (s : String) (t : PyDateTime) (h : parse s = some t) :
    detect_column_type parse (List.replicate 20 (PyVal.pyStr s)) =
      if hasTimePart t then "datetime" else "date" := by
  unfold detect_column_type
  rw [List.filter_replicate_of_pos (by rfl)]
  rw [if_neg (by rw [List.isEmpty_iff, List.replicate_eq_nil_iff]; omega)]
  rw [List.take_of_length_le (by rw [List.length_replicate]; omega)]
  have hany : (List.replicate 20 (PyVal.pyStr s)).any isTsVal = false := by
    rw [List.any_eq_false]
    intro v hv
    rw [List.eq_of_mem_replicate hv]
    simp [isTsVal]
  simp only []
  rw [hany]
  rw [if_neg (by simp)]
  have hall : (List.replicate 20 (PyVal.pyStr s)).all isStrVal = true := by
    rw [List.all_eq_true]
    intro v hv
    rw [List.eq_of_mem_replicate hv]
    rfl
  rw [if_pos hall]
  rw [List.take_of_length_le (by rw [List.length_replicate])]
  rw [List.filterMap_replicate_of_some (show strParse parse (PyVal.pyStr s)
    = some t from h)]
  by_cases ht : hasTimePart t = true
  · have hdt : (List.replicate 20 t).filter hasTimePart = List.replicate 20 t :=
      List.filter_replicate_of_pos ht
    have hdd : (List.replicate 20 t).filter (fun x => !(hasTimePart x)) = [] := by
      rw [List.filter_replicate_of_neg]
      simp [ht]
    rw [hdt, hdd]
    simp [ht]
  · have ht' : hasTimePart t = false := by simpa using ht
    have hdt : (List.replicate 20 t).filter hasTimePart = [] := by
      rw [List.filter_replicate_of_neg]
      simp [ht']
    have hdd : (List.replicate 20 t).filter (fun x => !(hasTimePart x))
        = List.replicate 20 t := by
      rw [List.filter_replicate_of_pos]
      simp [ht']
    rw [hdt, hdd]
    simp [ht']

/-- Nineteen strings none of which parses as a date. -/
def nonDateStrs : List String :=
  (List.range 19).map (fun i => "nodate" ++ toString i)

/-- One date-like string among nineteen unparseable ones (5% parsed,
below the 80% threshold) falls back to `TEXT`. -/
theorem detect_one_date_among_nondates (parse : String → Option PyDateTime)
    (h1 : parse "2024-01-15" = some ⟨2024, 1, 15, 0, 0, 0⟩)
    (h3 : ∀ s ∈ nonDateStrs, parse s = Option.none) :
    detect_column_type parse
      (PyVal.pyStr "2024-01-15" :: nonDateStrs.map PyVal.pyStr) = "TEXT" := by
  have hlen : (PyVal.pyStr "2024-01-15" :: nonDateStrs.map PyVal.pyStr).length
      = 20 := by
    rw [List.length_cons, List.length_map]
    rw [show nonDateStrs.length = 19 from by
      unfold nonDateStrs; rw [List.length_map, List.length_range]]
  unfold detect_column_type
  have hfil : (PyVal.pyStr "2024-01-15" :: nonDateStrs.map PyVal.pyStr).filter
      (fun v => !(isNoneVal v))
      = PyVal.pyStr "2024-01-15" :: nonDateStrs.map PyVal.pyStr := by
    rw [List.filter_eq_self]
    intro v hv
    rcases List.mem_cons.mp hv with hv1 | hv1
    · subst hv1; rfl
    · rcases List.mem_map.mp hv1 with ⟨b, _, hb⟩
      rw [← hb]; rfl
  rw [hfil]
  rw [if_neg (by simp)]
  rw [List.take_of_length_le (by rw [hlen]; omega)]
  have hany : (PyVal.pyStr "2024-01-15" :: nonDateStrs.map PyVal.pyStr).any
      isTsVal = false := by
    rw [List.any_eq_false]
    intro v hv
    rcases List.mem_cons.mp hv with hv1 | hv1
    · subst hv1; simp [isTsVal]
    · rcases List.mem_map.mp hv1 with ⟨b, _, hb⟩
      rw [← hb]; simp [isTsVal]
  simp only []
  rw [hany]
  rw [if_neg (by simp)]
  have hall : (PyVal.pyStr "2024-01-15" :: nonDateStrs.map PyVal.pyStr).all
      isStrVal = true := by
    rw [List.all_eq_true]
    intro v hv
    rcases List.mem_cons.mp hv with hv1 | hv1
    · subst hv1; rfl
    · rcases List.mem_map.mp hv1 with ⟨b, _, hb⟩
      rw [← hb]; rfl
  rw [if_pos hall]
  rw [List.take_of_length_le (by rw [hlen])]
  have hpars : (PyVal.pyStr "2024-01-15" :: nonDateStrs.map PyVal.pyStr).filterMap
      (strParse parse) = [⟨2024, 1, 15, 0, 0, 0⟩] := by
    rw [List.filterMap_cons]
    simp only [strParse]
    rw [h1]
    rw [show (nonDateStrs.map PyVal.pyStr).filterMap (strParse parse) = []
      from List.filterMap_eq_nil_iff.mpr (by
        intro a ha
        rcases List.mem_map.mp ha with ⟨b, hb, hba⟩
        rw [← hba]
        simp only [strParse]
        exact h3 b hb)]
  rw [hpars]
  have c1 : List.filter hasTimePart [(⟨2024, 1, 15, 0, 0, 0⟩ : PyDateTime)]
      = [] := rfl
  have c2 : List.filter (fun x => !(hasTimePart x))
      [(⟨2024, 1, 15, 0, 0, 0⟩ : PyDateTime)] = [⟨2024, 1, 15, 0, 0, 0⟩] := rfl
  rw [c1, c2, hlen]
  rw [if_neg (by simp)]
  unfold fallbackType
  rw [mostCommon_all_eq "str"
    ((PyVal.pyStr "2024-01-15" :: nonDateStrs.map PyVal.pyStr).map typeName)
    (by simp)
    (by
      intro y hy
      rcases List.mem_map.mp hy with ⟨v, hv, hvy⟩
      rcases List.mem_cons.mp hv with hv1 | hv1
      · rw [← hvy, hv1]; rfl
      · rcases List.mem_map.mp hv1 with ⟨b, _, hb⟩
        rw [← hvy, ← hb]; rfl)]
  rfl

/-- The 80%-of-20-sample date rule: on an all-string sample with enough
parsed values, the result is decided by comparing time-carrying parses
against date-only parses. -/
theorem detect_string_date_rule (parse : String → Option PyDateTime)
    (values : List PyVal)
    (hne : (values.filter (fun v => !(isNoneVal v))).isEmpty = false)
    (hstr : ((values.filter (fun v => !(isNoneVal v))).take 100).all isStrVal
      = true)
    (hthr : 5 * ((((values.filter (fun v => !(isNoneVal v))).take 100).take
          20).filterMap (strParse parse)).length
        > 4 * (((values.filter (fun v => !(isNoneVal v))).take 100).take
          20).length) :
    detect_column_type parse values =
      if (((((values.filter (fun v => !(isNoneVal v))).take 100).take
            20).filterMap (strParse parse)).filter hasTimePart).length
          > (((((values.filter (fun v => !(isNoneVal v))).take 100).take
            20).filterMap (strParse parse)).filter
              (fun x => !(hasTimePart x))).length
      then "datetime" else "date" := by
  unfold detect_column_type
  rw [if_neg (by simp [hne])]
  have hany : ((values.filter (fun v => !(isNoneVal v))).take 100).any isTsVal
      = false := by
    rw [List.any_eq_false]
    intro v hv
    have hs := List.all_eq_true.mp hstr v hv
    cases v <;> simp_all [isStrVal, isTsVal]
  simp only []
  rw [hany]
  rw [if_neg (by simp)]
  rw [if_pos hstr]
  have hpart := filter_length_partition hasTimePart
    ((((values.filter (fun v => !(isNoneVal v))).take 100).take 20).filterMap
      (strParse parse))
  rw [if_pos (by omega)]

/-- C7: type inference on string columns follows the 80%-of-20-sample
date rule — enough parsed values give `datetime` when time-carrying
parses outnumber date-only ones and `date` otherwise — and concretely: a
column of twenty `"2024-01-15"` strings is `date`, twenty
`"2024-01-15T10:30:00"` strings are `datetime`, any non-empty all-integer
column is `INTEGER`, one date-like string among nineteen non-date strings
falls back to `TEXT`, and an all-null column is `TEXT`. -/
theorem infer_type_date_detection (parse : String → Option PyDateTime)
    (h1 : parse "2024-01-15" = some ⟨2024, 1, 15, 0, 0, 0⟩)
    (h2 : parse "2024-01-15T10:30:00" = some ⟨2024, 1, 15, 10, 30, 0⟩)
    (h3 : ∀ s ∈ nonDateStrs, parse s = Option.none) :
    detect_column_type parse (List.replicate 20 (PyVal.pyStr "2024-01-15"))
        = "date" ∧
      detect_column_type parse
        (List.replicate 20 (PyVal.pyStr "2024-01-15T10:30:00")) = "datetime" ∧
      (∀ ns : List Int, ns ≠ [] →
        detect_column_type parse (ns.map PyVal.pyInt) = "INTEGER") ∧
      detect_column_type parse
        (PyVal.pyStr "2024-01-15" :: nonDateStrs.map PyVal.pyStr) = "TEXT" ∧
      (∀ vs : List PyVal, vs.all isNoneVal = true →
        detect_column_type parse vs = "TEXT") ∧
      (∀ values : List PyVal,
        (values.filter (fun v => !(isNoneVal v))).isEmpty = false →
        ((values.filter (fun v => !(isNoneVal v))).take 100).all isStrVal = true →
        5 * ((((values.filter (fun v => !(isNoneVal v))).take 100).take
            20).filterMap (strParse parse)).length
          > 4 * (((values.filter (fun v => !(isNoneVal v))).take 100).take
            20).length →
        detect_column_type parse values =
          if (((((values.filter (fun v => !(isNoneVal v))).take 100).take
                20).filterMap (strParse parse)).filter hasTimePart).length
              > (((((values.filter (fun v => !(isNoneVal v))).take 100).take
                20).filterMap (strParse parse)).filter
                  (fun x => !(hasTimePart x))).length
          then "datetime" else "date") := by
  refine ⟨?_, ?_, detect_all_ints parse, detect_one_date_among_nondates parse h1 h3,
    detect_all_none parse, detect_string_date_rule parse⟩
  · rw [detect_all_same_string parse "2024-01-15" ⟨2024, 1, 15, 0, 0, 0⟩ h1]
    rfl
  · rw [detect_all_same_string parse "2024-01-15T10:30:00"
      ⟨2024, 1, 15, 10, 30, 0⟩ h2]
    rfl

/-- A concrete parser realizing the dateutil behaviour assumed in
`infer_type_date_detection`. -/
def parseLit : String → Option PyDateTime := fun s =>
  if s = "2024-01-15" then some ⟨2024, 1, 15, 0, 0, 0⟩
  else if s = "2024-01-15T10:30:00" then some ⟨2024, 1, 15, 10, 30, 0⟩
  else Option.none

/-- Witness for `infer_type_date_detection` with the concrete parser. -/
theorem infer_type_date_detection_witness :
    detect_column_type parseLit (List.replicate 20 (PyVal.pyStr "2024-01-15"))
        = "date" ∧
      detect_column_type parseLit
        (List.replicate 20 (PyVal.pyStr "2024-01-15T10:30:00")) = "datetime" ∧
      detect_column_type parseLit ([3, 5].map PyVal.pyInt) = "INTEGER" ∧
      detect_column_type parseLit
        (PyVal.pyStr "2024-01-15" :: nonDateStrs.map PyVal.pyStr) = "TEXT" ∧
      detect_column_type parseLit [PyVal.pyNone] = "TEXT" := by
  have h := infer_type_date_detection parseLit rfl rfl (by decide)
  exact ⟨h.1, h.2.1, h.2.2.1 [3, 5] (by simp), h.2.2.2.1,
    h.2.2.2.2.1 [PyVal.pyNone] rfl⟩

/-- The identifier grammar of spec §3: non-empty, alphanumeric or
underscore characters only, not starting with a digit. -/
def isValidIdentifier (s : String) : Bool :=
  match s.data with
  | [] => false
  | c :: rest => !c.isDigit && (c :: rest).all (fun ch => ch.isAlphanum || ch == '_')

/-- C3: evaluating `sanitize_column_name` at the digit-leading name
`"9abc"` shows the missing f-string: the result is the fifteen-character
literal `col_\x7bsanitized\x7d`, and sanitizing it again strips the
braces and yields `col_sanitized`, so sanitization is not idempotent on
digit-leading names. -/
theorem sanitize_not_idempotent_at_digit_name :
    sanitize_column_name "9abc" = "col_\x7bsanitized\x7d" ∧
      sanitize_column_name (sanitize_column_name "9abc") = "col_sanitized" ∧
      sanitize_column_name (sanitize_column_name "9abc")
        ≠ sanitize_column_name "9abc" := by
  refine ⟨rfl, rfl, by decide⟩

/-- C4: evaluating `analyze_column_structure` on a record whose only
field is named `"9abc"` produces the column key `col_\x7bsanitized\x7d`,
which contains braces and is not a valid identifier. -/
theorem analyze_key_invalid_at_digit_name :
    analyze_column_structure parseNone [Row.record [("9abc", PyVal.pyInt 1)]]
        = [("col_\x7bsanitized\x7d",
            { original_name := "9abc", type_ := "INTEGER" })] ∧
      isValidIdentifier "col_\x7bsanitized\x7d" = false := by
  refine ⟨rfl, rfl⟩

end DataDock
